import Mathlib

/-!
Verification of the water-quality inference pipeline of the AquaSense backend
(`ml/water_quality_predictor.py`, consumed by `services/analysis_service.py`).

Numeric sensor values and model probabilities are modelled as exact rationals
(`ℚ`); absence of a sensor value is `Option.none`, matching Python `None`.
-/

/-- One water-quality measurement event, as stored by the tank-management
subsystem (`models/water_quality.py`, class `WaterQuality`); the spec calls it
a SensorReading. Six attributes are trackable feature dimensions; the
remaining columns (`id`, `tank_id`, `nitrate`, `salinity`, `notes`) ride along
on the object but are not feature dimensions. -/
structure WaterQuality where
  id : String := ""
  tank_id : String := ""
  ph : Option ℚ := none
  temperature : Option ℚ := none
  dissolved_oxygen : Option ℚ := none
  ammonia : Option ℚ := none
  nitrite : Option ℚ := none
  nitrate : Option ℚ := none
  salinity : Option ℚ := none
  turbidity : Option ℚ := none
  notes : Option String := none
deriving Repr, DecidableEq

/-- Default for `BOD__mg_L_` in the `defaults` table of `_prepare_features`. -/
def defaults_BOD : ℚ := 3.0

/-- Default for `CO2` in the `defaults` table of `_prepare_features`. -/
def defaults_CO2 : ℚ := 5.0

/-- Default for `Alkalinity__mg_L_1__` in the `defaults` table. -/
def defaults_Alkalinity : ℚ := 100.0

/-- Default for `Hardness__mg_L_1__` in the `defaults` table. -/
def defaults_Hardness : ℚ := 150.0

/-- Default for `Calcium__mg_L_1__` in the `defaults` table. -/
def defaults_Calcium : ℚ := 60.0

/-- Default for `Phosphorus__mg_L_1__` in the `defaults` table. -/
def defaults_Phosphorus : ℚ := 0.05

/-- Default for `H2S__mg_L_1__` in the `defaults` table. -/
def defaults_H2S : ℚ := 0.001

/-- Default for `Plankton__No__L_1_` in the `defaults` table. -/
def defaults_Plankton : ℚ := 5000

/-- Embedding of `WaterQualityPredictor._prepare_features`: builds the 14-entry feature
list in the model's fixed order and the `missing` list of dimensions that
received a default, by the same sequence of appends as the source. A Python
expression `x if x is not None else d` becomes `Option.getD x d`. -/
def prepare_features (wq_reading : WaterQuality) : List ℚ × List String :=
  let missing : List String := []
  let features : List ℚ := []
  -- 1. Temp
  let features := features ++ [wq_reading.temperature.getD 26.0]
  let missing := missing ++ (if wq_reading.temperature = none then ["temperature"] else [])
  -- 2. Turbidity__cm_
  let features := features ++ [wq_reading.turbidity.getD 5.0]
  let missing := missing ++ (if wq_reading.turbidity = none then ["turbidity"] else [])
  -- 3. DO_mg_L_
  let features := features ++ [wq_reading.dissolved_oxygen.getD 7.0]
  let missing := missing ++ (if wq_reading.dissolved_oxygen = none then ["dissolved_oxygen"] else [])
  -- 4. BOD__mg_L_ (always default - not in tank data)
  let features := features ++ [defaults_BOD]
  let missing := missing ++ ["BOD"]
  -- 5. CO2 (always default - not in tank data)
  let features := features ++ [defaults_CO2]
  let missing := missing ++ ["CO2"]
  -- 6. pH
  let features := features ++ [wq_reading.ph.getD 7.5]
  let missing := missing ++ (if wq_reading.ph = none then ["ph"] else [])
  -- 7. Alkalinity__mg_L_1__ (always default - not in tank data)
  let features := features ++ [defaults_Alkalinity]
  let missing := missing ++ ["Alkalinity"]
  -- 8. Hardness__mg_L_1__ (always default - not in tank data)
  let features := features ++ [defaults_Hardness]
  let missing := missing ++ ["Hardness"]
  -- 9. Calcium__mg_L_1__ (always default - not in tank data)
  let features := features ++ [defaults_Calcium]
  let missing := missing ++ ["Calcium"]
  -- 10. Ammonia__mg_L_1__
  let features := features ++ [wq_reading.ammonia.getD 0.01]
  let missing := missing ++ (if wq_reading.ammonia = none then ["ammonia"] else [])
  -- 11. Nitrite__mg_L_1__
  let features := features ++ [wq_reading.nitrite.getD 0.01]
  let missing := missing ++ (if wq_reading.nitrite = none then ["nitrite"] else [])
  -- 12. Phosphorus__mg_L_1__ (always default - not in tank data)
  let features := features ++ [defaults_Phosphorus]
  let missing := missing ++ ["Phosphorus"]
  -- 13. H2S__mg_L_1__ (always default - not in tank data)
  let features := features ++ [defaults_H2S]
  let missing := missing ++ ["H2S"]
  -- 14. Plankton__No__L_1_ (always default - not in tank data)
  let features := features ++ [defaults_Plankton]
  let missing := missing ++ ["Plankton"]
  (features, missing)

/-- Modelled from the spec: the pre-trained classifier artifact
(`ml_tank/aqua_sense_model.pkl`) is loaded from disk and is not part of the
source tree. Per the spec it is "a pre-trained 3-class probability classifier
over exactly 14 ordered numeric features"; `predictClass` models
`model.predict(features)[0]` and `predictProba` models
`model.predict_proba(features)[0]`. Either evaluation may raise, which
`Except.error` captures. -/
structure Model where
  predictClass : List ℚ → Except String (Fin 3)
  predictProba : List ℚ → Except String (Fin 3 → ℚ)

/-- Modelled from the spec: the scikit-learn classifier contract the code and
spec rely on — `predict` returns the arg-max class of `predict_proba`, whose
three entries are non-negative and sum to 1. -/
def Model.WellBehaved (m : Model) : Prop :=
  ∀ x c p, m.predictClass x = .ok c → m.predictProba x = .ok p →
    (∀ j, p j ≤ p c) ∧ (∀ j, 0 ≤ p j) ∧ p 0 + p 1 + p 2 = 1

/-- The `probabilities` sub-dict of the result, keyed
`Excellent`/`Good`/`Poor` in the source. -/
structure ProbDist where
  excellent : ℚ
  good : ℚ
  poor : ℚ
deriving Repr, DecidableEq

/-- The three probabilities in index order, matching
`[probabilities[0], probabilities[1], probabilities[2]]`. -/
def ProbDist.toList (p : ProbDist) : List ℚ := [p.excellent, p.good, p.poor]

/-- The result dict returned by `WaterQualityPredictor.predict` on success. -/
structure PredictionResult where
  prediction : String
  prediction_class : Nat
  confidence : ℚ
  probabilities : ProbDist
  features_used : List (String × ℚ)
  missing_features : List String

/-- The `features_used` sub-dict: the 14 slots of the feature array under the
model's column names, exactly as indexed `features[0, 0] .. features[0, 13]`
in the source; any other shape would raise an IndexError (captured as `none`),
which cannot happen for output of `prepare_features`. -/
def features_used_of (features : List ℚ) : Option (List (String × ℚ)) :=
  match features with
  | [t, tu, dv, b, c, p, al, h, ca, am, ni, ph2, hs, pl] =>
    some [("Temp", t), ("Turbidity__cm_", tu), ("DO_mg_L_", dv), ("BOD__mg_L_", b),
          ("CO2", c), ("pH", p), ("Alkalinity__mg_L_1__", al), ("Hardness__mg_L_1__", h),
          ("Calcium__mg_L_1__", ca), ("Ammonia__mg_L_1__", am), ("Nitrite__mg_L_1__", ni),
          ("Phosphorus__mg_L_1__", ph2), ("H2S__mg_L_1__", hs), ("Plankton__No__L_1_", pl)]
  | _ => none

/-- The component state of `WaterQualityPredictor`: the three instance fields
set in `__init__`. `model = none` is the `Unloaded` state (Python
`self.model = None`); `quality_labels` is the dict `{0: "Excellent",
1: "Good", 2: "Poor"}` as an association list. -/
structure WaterQualityPredictor where
  model : Option Model
  model_path : String
  quality_labels : List (Nat × String)

/-- Embedding of `WaterQualityPredictor.__init__` plus `_load_model`: the outcome of the
external `joblib.load` on the fixed path is passed in as `loadResult`; on
failure the exception is caught and the instance keeps `model = None`. -/
def WaterQualityPredictor.mk_init (loadResult : Except String Model) : WaterQualityPredictor :=
  { model := match loadResult with
      | .ok m => some m
      | .error _ => none
    model_path := "ml_tank/aqua_sense_model.pkl"
    quality_labels := [(0, "Excellent"), (1, "Good"), (2, "Poor")] }

/-- Embedding of `WaterQualityPredictor.predict`, with the state threaded explicitly: the
result is paired with the instance state after the call (the method writes no
instance field, so every path returns `self`). `if not self.model: return
None` is the `none` match; the `try`/`except ... return None` wraps model
evaluation and the `quality_labels[prediction_class]` lookup, so every raise
inside becomes `none`. -/
def WaterQualityPredictor.predict (self : WaterQualityPredictor) (wq_reading : WaterQuality) :
    Option PredictionResult × WaterQualityPredictor :=
  match self.model with
  | none => (none, self)
  | some model =>
    let fm := prepare_features wq_reading
    let features := fm.1
    let missing := fm.2
    match model.predictClass features with
    | .error _ => (none, self)
    | .ok prediction_class =>
      match model.predictProba features with
      | .error _ => (none, self)
      | .ok probabilities =>
        match self.quality_labels.lookup prediction_class.val with
        | none => (none, self)
        | some label =>
          match features_used_of features with
          | none => (none, self)
          | some fu =>
            (some { prediction := label
                    prediction_class := prediction_class.val
                    confidence := probabilities prediction_class
                    probabilities := { excellent := probabilities 0
                                       good := probabilities 1
                                       poor := probabilities 2 }
                    features_used := fu
                    missing_features := missing }, self)

/-- The `always_default` name list, hardcoded identically in
`predict` (line 182) and in `AnalysisService._analyze_water_quality`
(line 247). -/
def always_default : List String :=
  ["BOD", "CO2", "Alkalinity", "Hardness", "Calcium", "Phosphorus", "H2S", "Plankton"]

/-- Embedding of `AnalysisService._analyze_water_quality` line 248: `not_measured = [m for
m in missing if m not in always_default]` — the downstream reconstruction of
the this-instance-missing part of the report. -/
def not_measured_of (missing : List String) : List String :=
  missing.filter (fun m => !(always_default.contains m))

/-- The 14 dimension names under which `prepare_features` can report a
default, listed in the fixed dimension order of the feature vector: trackable
dimensions under their lowercase attribute names, untracked ones under their
capitalized feature names. -/
def missing_name_order : List String :=
  ["temperature", "turbidity", "dissolved_oxygen", "BOD", "CO2", "ph",
   "Alkalinity", "Hardness", "Calcium", "ammonia", "nitrite",
   "Phosphorus", "H2S", "Plankton"]

/-- The trackable dimension names absent from a reading, in the order
`prepare_features` reports them. -/
def absent_trackable (r : WaterQuality) : List String :=
  (if r.temperature = none then ["temperature"] else []) ++
  (if r.turbidity = none then ["turbidity"] else []) ++
  (if r.dissolved_oxygen = none then ["dissolved_oxygen"] else []) ++
  (if r.ph = none then ["ph"] else []) ++
  (if r.ammonia = none then ["ammonia"] else []) ++
  (if r.nitrite = none then ["nitrite"] else [])

/-- The number of trackable attributes absent from a reading. -/
def num_absent (r : WaterQuality) : Nat :=
  (if r.temperature = none then 1 else 0) + (if r.turbidity = none then 1 else 0) +
  (if r.dissolved_oxygen = none then 1 else 0) + (if r.ph = none then 1 else 0) +
  (if r.ammonia = none then 1 else 0) + (if r.nitrite = none then 1 else 0)

/-- C1: for every reading — any subset of the six trackable attributes
present — `_prepare_features` returns exactly 14 entries in the fixed order
[temperature, turbidity, dissolved_oxygen, BOD, CO2, pH, alkalinity,
hardness, calcium, ammonia, nitrite, phosphorus, H2S, plankton_count], every
slot holding the reading's value for its dimension or that dimension's
default; on the excellent-conditions example reading the vector is
[26.0, 30.0, 8.0, 3.0, 5.0, 7.5, 100.0, 150.0, 60.0, 0.01, 0.01, 0.05,
0.001, 5000.0] and the missing report is the 8 untracked names only. -/
theorem prepare_features_complete_ordered (r : WaterQuality) :
    (prepare_features r).1 =
      [r.temperature.getD 26.0, r.turbidity.getD 5.0, r.dissolved_oxygen.getD 7.0,
       3.0, 5.0, r.ph.getD 7.5, 100.0, 150.0, 60.0,
       r.ammonia.getD 0.01, r.nitrite.getD 0.01, 0.05, 0.001, 5000] ∧
    (prepare_features r).1.length = 14 ∧
    prepare_features
      { temperature := some 26.0, turbidity := some 30.0, dissolved_oxygen := some 8.0,
        ph := some 7.5, ammonia := some 0.01, nitrite := some 0.01 } =
      ([26.0, 30.0, 8.0, 3.0, 5.0, 7.5, 100.0, 150.0, 60.0, 0.01, 0.01, 0.05, 0.001, 5000],
       ["BOD", "CO2", "Alkalinity", "Hardness", "Calcium", "Phosphorus", "H2S", "Plankton"]) :=
  ⟨rfl, rfl, rfl⟩

/-- Normal form of the feature component of `_prepare_features`: the source
appends exactly these 14 entries in this order. -/
theorem prepare_features_fst (r : WaterQuality) :
    (prepare_features r).1 =
      [r.temperature.getD 26.0, r.turbidity.getD 5.0, r.dissolved_oxygen.getD 7.0,
       defaults_BOD, defaults_CO2, r.ph.getD 7.5, defaults_Alkalinity, defaults_Hardness,
       defaults_Calcium, r.ammonia.getD 0.01, r.nitrite.getD 0.01, defaults_Phosphorus,
       defaults_H2S, defaults_Plankton] := rfl

/-- Normal form of the missing report of `_prepare_features`: the
conditional and unconditional appends flattened left to right. -/
theorem prepare_features_snd (r : WaterQuality) :
    (prepare_features r).2 =
      (if r.temperature = none then ["temperature"] else []) ++
      (if r.turbidity = none then ["turbidity"] else []) ++
      (if r.dissolved_oxygen = none then ["dissolved_oxygen"] else []) ++
      ["BOD", "CO2"] ++
      (if r.ph = none then ["ph"] else []) ++
      ["Alkalinity", "Hardness", "Calcium"] ++
      (if r.ammonia = none then ["ammonia"] else []) ++
      (if r.nitrite = none then ["nitrite"] else []) ++
      ["Phosphorus", "H2S", "Plankton"] := by
  simp [prepare_features]

/-- C4: each trackable dimension uses the reading's value verbatim when
present; when absent it uses the documented default and the dimension's name
is recorded in the missing report; the sparse example reading
{temperature=25.0, pH=7.2} yields defaults for the other four trackable
dimensions plus the 8 untracked ones, with a missing report of exactly 12
names. -/
theorem prepare_features_trackable_dims (r : WaterQuality) :
    ((∀ v, r.temperature = some v → (prepare_features r).1[0]? = some v) ∧
     (r.temperature = none →
       (prepare_features r).1[0]? = some (26.0 : ℚ) ∧ "temperature" ∈ (prepare_features r).2)) ∧
    ((∀ v, r.turbidity = some v → (prepare_features r).1[1]? = some v) ∧
     (r.turbidity = none →
       (prepare_features r).1[1]? = some (5.0 : ℚ) ∧ "turbidity" ∈ (prepare_features r).2)) ∧
    ((∀ v, r.dissolved_oxygen = some v → (prepare_features r).1[2]? = some v) ∧
     (r.dissolved_oxygen = none →
       (prepare_features r).1[2]? = some (7.0 : ℚ) ∧ "dissolved_oxygen" ∈ (prepare_features r).2)) ∧
    ((∀ v, r.ph = some v → (prepare_features r).1[5]? = some v) ∧
     (r.ph = none →
       (prepare_features r).1[5]? = some (7.5 : ℚ) ∧ "ph" ∈ (prepare_features r).2)) ∧
    ((∀ v, r.ammonia = some v → (prepare_features r).1[9]? = some v) ∧
     (r.ammonia = none →
       (prepare_features r).1[9]? = some (0.01 : ℚ) ∧ "ammonia" ∈ (prepare_features r).2)) ∧
    ((∀ v, r.nitrite = some v → (prepare_features r).1[10]? = some v) ∧
     (r.nitrite = none →
       (prepare_features r).1[10]? = some (0.01 : ℚ) ∧ "nitrite" ∈ (prepare_features r).2)) ∧
    prepare_features { temperature := some 25.0, ph := some 7.2 } =
      ([25.0, 5.0, 7.0, 3.0, 5.0, 7.2, 100.0, 150.0, 60.0, 0.01, 0.01, 0.05, 0.001, 5000],
       ["turbidity", "dissolved_oxygen", "BOD", "CO2", "Alkalinity", "Hardness", "Calcium",
        "ammonia", "nitrite", "Phosphorus", "H2S", "Plankton"]) ∧
    (prepare_features { temperature := some 25.0, ph := some 7.2 }).2.length = 12 := by
  refine ⟨⟨?_, fun h => ⟨?_, ?_⟩⟩, ⟨?_, fun h => ⟨?_, ?_⟩⟩, ⟨?_, fun h => ⟨?_, ?_⟩⟩,
          ⟨?_, fun h => ⟨?_, ?_⟩⟩, ⟨?_, fun h => ⟨?_, ?_⟩⟩, ⟨?_, fun h => ⟨?_, ?_⟩⟩, rfl, rfl⟩ <;>
    first
      | (intro v h; simp only [prepare_features_fst, h]; rfl)
      | (simp only [prepare_features_fst, h]; rfl)
      | (simp [prepare_features_snd, h])

/-- Witness for C4 at the sparse example reading: the present dimension
(temperature) is copied verbatim, and an absent one (turbidity) defaults to
5.0 and is reported missing. -/
theorem prepare_features_trackable_dims_witness :
    ({ temperature := some 25.0, ph := some 7.2 } : WaterQuality).temperature = some 25.0 ∧
    (prepare_features { temperature := some 25.0, ph := some 7.2 }).1[0]? = some (25.0 : ℚ) ∧
    ({ temperature := some 25.0, ph := some 7.2 } : WaterQuality).turbidity = none ∧
    (prepare_features { temperature := some 25.0, ph := some 7.2 }).1[1]? = some (5.0 : ℚ) ∧
    "turbidity" ∈ (prepare_features { temperature := some 25.0, ph := some 7.2 }).2 :=
  ⟨rfl,
   (prepare_features_trackable_dims _).1.1 25.0 rfl,
   rfl,
   ((prepare_features_trackable_dims
      { temperature := some 25.0, ph := some 7.2 }).2.1.2 rfl).1,
   ((prepare_features_trackable_dims
      { temperature := some 25.0, ph := some 7.2 }).2.1.2 rfl).2⟩

/-- C5: every untracked dimension receives its static default and its name is
always in the missing report; for the all-absent reading, assembly succeeds,
all 14 slots are defaults and all 14 names are reported. -/
theorem prepare_features_untracked_defaults (r : WaterQuality) :
    (prepare_features r).1[3]? = some (3.0 : ℚ) ∧ (prepare_features r).1[4]? = some (5.0 : ℚ) ∧
    (prepare_features r).1[6]? = some (100.0 : ℚ) ∧
    (prepare_features r).1[7]? = some (150.0 : ℚ) ∧
    (prepare_features r).1[8]? = some (60.0 : ℚ) ∧
    (prepare_features r).1[11]? = some (0.05 : ℚ) ∧
    (prepare_features r).1[12]? = some (0.001 : ℚ) ∧
    (prepare_features r).1[13]? = some (5000 : ℚ) ∧
    "BOD" ∈ (prepare_features r).2 ∧ "CO2" ∈ (prepare_features r).2 ∧
    "Alkalinity" ∈ (prepare_features r).2 ∧ "Hardness" ∈ (prepare_features r).2 ∧
    "Calcium" ∈ (prepare_features r).2 ∧ "Phosphorus" ∈ (prepare_features r).2 ∧
    "H2S" ∈ (prepare_features r).2 ∧ "Plankton" ∈ (prepare_features r).2 ∧
    prepare_features {} =
      ([26.0, 5.0, 7.0, 3.0, 5.0, 7.5, 100.0, 150.0, 60.0, 0.01, 0.01, 0.05, 0.001, 5000],
       missing_name_order) ∧
    missing_name_order.length = 14 := by
  refine ⟨?_, ?_, ?_, ?_, ?_, ?_, ?_, ?_,
          ?_, ?_, ?_, ?_, ?_, ?_, ?_, ?_, rfl, rfl⟩ <;>
    first
      | (simp only [prepare_features_fst]; rfl)
      | simp [prepare_features_snd]

/-- C6: the missing report partitions the defaulted dimensions by source —
filtering it against the hardcoded always-default name list (exactly as the
downstream `AnalysisService._analyze_water_quality` does) recovers the 8
permanently-defaulted untracked dimensions on one side and exactly the
trackable dimensions that were absent on this reading on the other. -/
theorem missing_report_partition (r : WaterQuality) :
    (prepare_features r).2.filter (fun m => always_default.contains m) = always_default ∧
    not_measured_of (prepare_features r).2 = absent_trackable r := by
  constructor
  · rw [prepare_features_snd]
    unfold always_default
    split_ifs <;> rfl
  · rw [prepare_features_snd]
    unfold not_measured_of absent_trackable always_default
    split_ifs <;> rfl

/-- C10: the missing report is exactly the subsequence of the fixed,
dimension-ordered name list selected by "untracked or absent", so it has
length 8 plus the number of absent trackable attributes, its entries appear
in the fixed dimension order, trackable dimensions are reported under their
lowercase attribute names and untracked ones under their capitalized feature
names — the exact spellings the downstream consumer filters on. -/
theorem missing_report_shape (r : WaterQuality) :
    (prepare_features r).2.length = 8 + num_absent r ∧
    (prepare_features r).2 =
      missing_name_order.filter (fun n => (always_default ++ absent_trackable r).contains n) := by
  constructor
  · rw [prepare_features_snd]
    unfold num_absent
    split_ifs <;> rfl
  · rw [prepare_features_snd]
    unfold missing_name_order always_default absent_trackable
    split_ifs <;> rfl

/-- C9: feature assembly reads only the six trackable attributes — two
readings agreeing on temperature, turbidity, dissolved_oxygen, ph, ammonia
and nitrite produce the identical feature vector and missing report, whatever
their other attributes. -/
theorem prepare_features_trackable_only (r1 r2 : WaterQuality)
    (h1 : r1.temperature = r2.temperature) (h2 : r1.turbidity = r2.turbidity)
    (h3 : r1.dissolved_oxygen = r2.dissolved_oxygen) (h4 : r1.ph = r2.ph)
    (h5 : r1.ammonia = r2.ammonia) (h6 : r1.nitrite = r2.nitrite) :
    prepare_features r1 = prepare_features r2 := by
  simp only [prepare_features, h1, h2, h3, h4, h5, h6]

/-- Witness for C9: two readings that agree on the six trackable attributes
but differ in `id`, `nitrate`, `salinity` and `notes` get the same feature
vector and missing report. -/
theorem prepare_features_trackable_only_witness :
    prepare_features
      { id := "a", temperature := some 25.0, ph := some 7.2, nitrate := some 40.0,
        salinity := some 12.0, notes := some "cloudy water" } =
    prepare_features
      { id := "b", temperature := some 25.0, ph := some 7.2 } ∧
    ({ id := "a", temperature := some 25.0, ph := some 7.2, nitrate := some 40.0,
       salinity := some 12.0, notes := some "cloudy water" } : WaterQuality).id ≠
      ({ id := "b", temperature := some 25.0, ph := some 7.2 } : WaterQuality).id ∧
    ({ id := "a", temperature := some 25.0, ph := some 7.2, nitrate := some 40.0,
       salinity := some 12.0, notes := some "cloudy water" } : WaterQuality).notes ≠
      ({ id := "b", temperature := some 25.0, ph := some 7.2 } : WaterQuality).notes :=
  ⟨prepare_features_trackable_only _ _ rfl rfl rfl rfl rfl rfl,
   by simp, by simp⟩

/-- Characterization of the success path of `predict`: when the model is
loaded and both model evaluations return, the result packages the label
under the fixed index mapping, the class, its probability as confidence,
the index-ordered distribution, the 14 named features and the missing
report. -/
theorem predict_ok_char (m : Model) (r : WaterQuality) (c : Fin 3) (p : Fin 3 → ℚ)
    (hc : m.predictClass (prepare_features r).1 = .ok c)
    (hp : m.predictProba (prepare_features r).1 = .ok p) :
    ((WaterQualityPredictor.mk_init (.ok m)).predict r).1 =
      some { prediction := ["Excellent", "Good", "Poor"].getD c.val (""),
             prediction_class := c.val,
             confidence := p c,
             probabilities := { excellent := p 0, good := p 1, poor := p 2 },
             features_used := (features_used_of (prepare_features r).1).getD [],
             missing_features := (prepare_features r).2 } := by
  rw [prepare_features_fst r] at hc hp
  fin_cases c <;>
    simp [WaterQualityPredictor.predict, WaterQualityPredictor.mk_init, hc, hp,
      features_used_of, prepare_features_fst, List.lookup]

/-- C2: on every successful `predict` call, the predicted label is the
arg-max class of the returned distribution under the fixed mapping
0 = Excellent, 1 = Good, 2 = Poor; the confidence equals the probability of
the predicted class; and the three probabilities are non-negative and sum to
1 (hence to 1.0 within 1e-6). -/
theorem predict_argmax_distribution (m : Model) (r : WaterQuality) (res : PredictionResult)
    (hm : m.WellBehaved)
    (hres : ((WaterQualityPredictor.mk_init (.ok m)).predict r).1 = some res) :
    res.prediction_class < 3 ∧
    res.prediction = ["Excellent", "Good", "Poor"].getD res.prediction_class ("") ∧
    res.confidence = res.probabilities.toList.getD res.prediction_class 0 ∧
    (∀ q ∈ res.probabilities.toList, 0 ≤ q ∧ q ≤ res.confidence) ∧
    res.probabilities.excellent + res.probabilities.good + res.probabilities.poor = 1 ∧
    |res.probabilities.excellent + res.probabilities.good + res.probabilities.poor - 1| ≤
      1 / 1000000 := by
  rcases hc : m.predictClass (prepare_features r).1 with msg | c
  · rw [show ((WaterQualityPredictor.mk_init (.ok m)).predict r).1 = none by
      simp [WaterQualityPredictor.predict, WaterQualityPredictor.mk_init, hc]] at hres
    cases hres
  rcases hp : m.predictProba (prepare_features r).1 with msg | p
  · rw [show ((WaterQualityPredictor.mk_init (.ok m)).predict r).1 = none by
      simp [WaterQualityPredictor.predict, WaterQualityPredictor.mk_init, hc, hp]] at hres
    cases hres
  obtain ⟨hmax, hnn, hsum⟩ := hm _ _ _ hc hp
  rw [predict_ok_char m r c p hc hp] at hres
  injection hres with hres
  subst hres
  refine ⟨c.isLt, rfl, ?_, ?_, hsum, by rw [hsum]; norm_num⟩
  · fin_cases c <;> rfl
  · intro q hq
    have hq3 : q = p 0 ∨ q = p 1 ∨ q = p 2 := by
      simpa [ProbDist.toList] using hq
    rcases hq3 with rfl | rfl | rfl
    · exact ⟨hnn 0, hmax 0⟩
    · exact ⟨hnn 1, hmax 1⟩
    · exact ⟨hnn 2, hmax 2⟩

/-- A concrete well-behaved classifier that always answers class 0 with a
point-mass distribution; used to witness the success path. -/
def mPoint : Model :=
  { predictClass := fun _ => .ok 0,
    predictProba := fun _ => .ok (fun i => if i = 0 then 1 else 0) }

/-- The result `predict` returns for `mPoint` on the all-absent reading. -/
def resPoint : PredictionResult :=
  { prediction := "Excellent",
    prediction_class := 0,
    confidence := 1,
    probabilities := { excellent := 1, good := 0, poor := 0 },
    features_used :=
      [("Temp", 26.0), ("Turbidity__cm_", 5.0), ("DO_mg_L_", 7.0), ("BOD__mg_L_", defaults_BOD),
       ("CO2", defaults_CO2), ("pH", 7.5), ("Alkalinity__mg_L_1__", defaults_Alkalinity),
       ("Hardness__mg_L_1__", defaults_Hardness), ("Calcium__mg_L_1__", defaults_Calcium),
       ("Ammonia__mg_L_1__", 0.01), ("Nitrite__mg_L_1__", 0.01),
       ("Phosphorus__mg_L_1__", defaults_Phosphorus), ("H2S__mg_L_1__", defaults_H2S),
       ("Plankton__No__L_1_", defaults_Plankton)],
    missing_features := missing_name_order }

/-- The point-mass model `mPoint` satisfies the classifier contract. -/
theorem mPoint_wellBehaved : Model.WellBehaved mPoint := by
  intro x c p hc hp
  injection hc with hc
  injection hp with hp
  subst hc
  subst hp
  refine ⟨?_, ?_, ?_⟩
  · intro j
    fin_cases j <;> simp [Fin.ext_iff]
  · intro j
    fin_cases j <;> simp [Fin.ext_iff]
  · simp [Fin.ext_iff]

/-- Witness for C2: the concrete point-mass model on the all-absent reading
returns `resPoint`, and the claim's conclusions hold for it. -/
theorem predict_argmax_distribution_witness :
    Model.WellBehaved mPoint ∧
    ((WaterQualityPredictor.mk_init (.ok mPoint)).predict {}).1 = some resPoint ∧
    resPoint.prediction_class < 3 ∧
    resPoint.prediction = ["Excellent", "Good", "Poor"].getD resPoint.prediction_class ("") :=
  ⟨mPoint_wellBehaved, rfl,
   (predict_argmax_distribution mPoint {} resPoint mPoint_wellBehaved rfl).1,
   (predict_argmax_distribution mPoint {} resPoint mPoint_wellBehaved rfl).2.1⟩

/-- C3: `predict` never propagates an exception — with no model loaded it
returns the distinguished unavailable result `none`, and any raise inside the
guarded block (here: either model evaluation) is caught and converted to
`none`. (In the embedding `predict` is a total function, so exists no path
that fails to return.) -/
theorem predict_unavailable (e : String) (r : WaterQuality) (m : Model) :
    ((WaterQualityPredictor.mk_init (.error e)).predict r).1 = none ∧
    (∀ msg, m.predictClass (prepare_features r).1 = .error msg →
      ((WaterQualityPredictor.mk_init (.ok m)).predict r).1 = none) ∧
    (∀ msg c, m.predictClass (prepare_features r).1 = .ok c →
      m.predictProba (prepare_features r).1 = .error msg →
      ((WaterQualityPredictor.mk_init (.ok m)).predict r).1 = none) := by
  refine ⟨rfl, fun msg h => ?_, fun msg c hc hp => ?_⟩
  · simp [WaterQualityPredictor.predict, WaterQualityPredictor.mk_init, h]
  · simp [WaterQualityPredictor.predict, WaterQualityPredictor.mk_init, hc, hp]

/-- A model whose first evaluation raises; exercises the except path of
`predict`. -/
def mFailClass : Model :=
  { predictClass := fun _ => .error ("boom"), predictProba := fun _ => .error ("boom") }

/-- A model whose probability evaluation raises after a successful class
evaluation. -/
def mFailProba : Model :=
  { predictClass := fun _ => .ok 0, predictProba := fun _ => .error ("boom") }

/-- Witness for C3: an unloaded predictor and two raising models all yield
the unavailable result on the all-absent reading. -/
theorem predict_unavailable_witness :
    ((WaterQualityPredictor.mk_init (.error ("no such file"))).predict {}).1 = none ∧
    ((WaterQualityPredictor.mk_init (.ok mFailClass)).predict {}).1 = none ∧
    ((WaterQualityPredictor.mk_init (.ok mFailProba)).predict {}).1 = none :=
  ⟨(predict_unavailable ("no such file") {} mFailClass).1,
   (predict_unavailable ("no such file") {} mFailClass).2.1 ("boom") rfl,
   (predict_unavailable ("no such file") {} mFailProba).2.2 ("boom") 0 rfl rfl⟩

/-- Every path of `predict` returns the instance state unchanged: the method
assigns no field of `self`. -/
theorem predict_state_eq (p : WaterQualityPredictor) (r : WaterQuality) :
    (p.predict r).2 = p := by
  rcases hm : p.model with _ | m
  · simp [WaterQualityPredictor.predict, hm]
  · rcases hc : m.predictClass (prepare_features r).1 with msg | c
    · simp [WaterQualityPredictor.predict, hm, hc]
    · rcases hp : m.predictProba (prepare_features r).1 with msg | pr
      · simp [WaterQualityPredictor.predict, hm, hc, hp]
      · rcases hl : p.quality_labels.lookup c.val with _ | lbl
        · simp [WaterQualityPredictor.predict, hm, hc, hp, hl]
        · rcases hf : features_used_of (prepare_features r).1 with _ | fu
          · simp [WaterQualityPredictor.predict, hm, hc, hp, hl, hf]
          · simp [WaterQualityPredictor.predict, hm, hc, hp, hl, hf]

/-- C7: `predict` is deterministic and feature assembly is pure — the call
leaves the component unchanged, and a second call on the resulting component
with the identical reading returns the identical result (same label,
confidence, distribution, features_used and missing_features). -/
theorem predict_deterministic (p : WaterQualityPredictor) (r : WaterQuality) :
    (p.predict r).2 = p ∧
    (p.predict r).2.predict r = p.predict r ∧
    prepare_features r = prepare_features r :=
  ⟨predict_state_eq p r, by rw [predict_state_eq], rfl⟩

/-- C8: component state is fixed at construction — loading is attempted only
in the constructor, whose outcome fixes `model` (`some` on success, `none` on
failure) permanently: every `predict` call leaves `model`, `model_path` and
`quality_labels` unchanged, and after any sequence of calls on a
failed-construction instance the model is still `none`. -/
theorem predictor_state_frame (p : WaterQualityPredictor) (r : WaterQuality)
    (e : String) (m : Model) (rs : List WaterQuality) :
    (p.predict r).2.model = p.model ∧
    (p.predict r).2.model_path = p.model_path ∧
    (p.predict r).2.quality_labels = p.quality_labels ∧
    (WaterQualityPredictor.mk_init (.ok m)).model = some m ∧
    (WaterQualityPredictor.mk_init (.error e)).model = none ∧
    (rs.foldl (fun q rd => (q.predict rd).2)
      (WaterQualityPredictor.mk_init (.error e))).model = none := by
  have hfold : ∀ (l : List WaterQuality) (q : WaterQualityPredictor),
      l.foldl (fun q rd => (q.predict rd).2) q = q := by
    intro l
    induction l with
    | nil => intro q; rfl
    | cons a t ih =>
      intro q
      simp [List.foldl, predict_state_eq, ih]
  refine ⟨by rw [predict_state_eq], by rw [predict_state_eq], by rw [predict_state_eq],
    rfl, rfl, by rw [hfold]; rfl⟩
